import Mathlib

/-
  Shallow embedding of src/bin/tendermintx.rs (the TendermintX operator binary).

  The binary's external collaborators (the bridge contract, the Tendermint RPC
  data fetcher, and the Succinct proof-network client) are modelled as fields of
  an environment record; fallible calls are Except-valued, and a Rust `.unwrap()`
  on an Err is modelled as a panic outcome.  Machine integers (u64) are Nat with
  explicit wrap-around (% 2 ^ 64) where the source may overflow in release mode.
  Each function keeps the name of the Rust function it embeds.
-/

deriving instance DecidableEq for Except

namespace Tendermintx

/-- Wrapping 64-bit addition: the release-mode semantics of u64 addition. -/
def u64add (a b : Nat) : Nat := (a + b) % 2 ^ 64

/-- Wrapping 64-bit subtraction: the release-mode semantics of u64 subtraction,
operands reduced mod 2 ^ 64. -/
def u64sub (a b : Nat) : Nat := (a % 2 ^ 64 + (2 ^ 64 - b % 2 ^ 64)) % 2 ^ 64

/-- Big-endian byte layout of a u64 value, as abi_encode_packed lays out a uint64. -/
def u64BeBytes (n : Nat) : List Nat :=
  [n / 2 ^ 56 % 256, n / 2 ^ 48 % 256, n / 2 ^ 40 % 256, n / 2 ^ 32 % 256,
   n / 2 ^ 24 % 256, n / 2 ^ 16 % 256, n / 2 ^ 8 % 256, n % 256]

/-- StepInputTuple::abi_encode_packed of (trusted_block, trusted_header_hash):
8 big-endian bytes of the u64 followed by the 32 hash bytes
(type StepInputTuple = sol! tuple(uint64, bytes32)). -/
def stepInputPacked (trustedBlock : Nat) (trustedHeaderHash : List Nat) : List Nat :=
  u64BeBytes trustedBlock ++ trustedHeaderHash

/-- SkipInputTuple::abi_encode_packed of (trusted_block, trusted_header_hash,
target_block) (type SkipInputTuple = sol! tuple(uint64, bytes32, uint64)). -/
def skipInputPacked (trustedBlock : Nat) (trustedHeaderHash : List Nat)
    (targetBlock : Nat) : List Nat :=
  u64BeBytes trustedBlock ++ (trustedHeaderHash ++ u64BeBytes targetBlock)

/-- Reads a big-endian byte list back as a natural number (decoder side of the
packed-tuple round trip). -/
def beBytesToNat (bs : List Nat) : Nat := bs.foldl (fun acc b => acc * 256 + b) 0

/-- Decoder for the packed step tuple: first 8 bytes are the u64 trusted height,
the rest is the trusted header hash. -/
def stepInputDecode (bs : List Nat) : Nat × List Nat :=
  (beBytesToNat (bs.take 8), bs.drop 8)

/-- Decoder for the packed skip tuple: 8 bytes trusted height, 32 bytes trusted
header hash, 8 bytes target height. -/
def skipInputDecode (bs : List Nat) : Nat × List Nat × Nat :=
  (beBytesToNat (bs.take 8), ((bs.drop 8).take 32, beBytesToNat ((bs.drop 8).drop 32)))

/-- Observable actions of the operator binary, in program order. -/
inductive Event where
  | printed (msg : String)
  | consistencyChecked (height : Nat)
  | selectedTarget (currentBlock maxEndBlock targetBlock : Nat)
  | submittedStep (trustedBlock : Nat) (packedInput : List Nat)
  | submittedSkip (trustedBlock targetBlock : Nat) (packedInput : List Nat)
  | logInfo (msg : String)
  | logError (msg : String)
  | slept
  deriving DecidableEq

/-- External collaborators of the loop-mode operator: the bridge contract reads
(Except-valued: a transport failure is an error the Rust code unwraps), the
Tendermint data fetcher, and the proof-network submission client. -/
structure LoopEnv where
  latestBlock : Except String Nat
  skipMax : Except String Nat
  chainHeaderHash : Nat → List Nat
  contractHeaderHash : Nat → Except String (List Nat)
  chainHeadHeight : Nat
  findBlockToRequest : Nat → Nat → Nat
  submitStep : Nat → List Nat → Except String String
  submitSkip : Nat → Nat → List Nat → Except String String

/-- Result of TendermintXOperator::is_consistent: the contract read is unwrapped
(panicUnwrap on transport error), then the two hashes are compared and a
mismatch panics. -/
inductive ConsistencyResult where
  | panicUnwrap
  | panicMismatch (height : Nat)
  | ok
  deriving DecidableEq

/-- TendermintXOperator::is_consistent: fetch the chain header hash for the
block from the data fetcher, fetch the contract's stored hash (unwrap), and
panic iff they differ. -/
def is_consistent (env : LoopEnv) (currentBlock : Nat) : ConsistencyResult :=
  let expectedHeaderBytes := env.chainHeaderHash currentBlock
  match env.contractHeaderHash currentBlock with
  | .error _ => .panicUnwrap
  | .ok contractCurrentHeader =>
    if expectedHeaderBytes ≠ contractCurrentHeader then .panicMismatch currentBlock
    else .ok

/-- Result of request_step / request_skip: the contract hash read inside is
unwrapped, then the packed input is built and submitted. -/
inductive RequestResult where
  | panicUnwrap
  | submitted (packedInput : List Nat) (result : Except String String)
  deriving DecidableEq

/-- TendermintXOperator::request_step: fetch the trusted header hash from the
contract (unwrap), abi-encode-pack (trusted_block, hash), submit to the proof
network. -/
def request_step (env : LoopEnv) (trustedBlock : Nat) : RequestResult :=
  match env.contractHeaderHash trustedBlock with
  | .error _ => .panicUnwrap
  | .ok trustedHeaderHash =>
    .submitted (stepInputPacked trustedBlock trustedHeaderHash)
      (env.submitStep trustedBlock (stepInputPacked trustedBlock trustedHeaderHash))

/-- TendermintXOperator::request_skip: fetch the trusted header hash from the
contract (unwrap), abi-encode-pack (trusted_block, hash, target_block), submit. -/
def request_skip (env : LoopEnv) (trustedBlock targetBlock : Nat) : RequestResult :=
  match env.contractHeaderHash trustedBlock with
  | .error _ => .panicUnwrap
  | .ok trustedHeaderHash =>
    .submitted (skipInputPacked trustedBlock trustedHeaderHash targetBlock)
      (env.submitSkip trustedBlock targetBlock
        (skipInputPacked trustedBlock trustedHeaderHash targetBlock))

/-- How one iteration of the loop in TendermintXOperator::run ends. -/
inductive CycleEnd where
  | panicUnwrap
  | panicMismatch (height : Nat)
  | continueNoSleep
  | sleptThenNext
  deriving DecidableEq

/-- One iteration of the loop body of TendermintXOperator::run, given the
already-unwrapped skip_max (read once before the loop).  Returns the events of
the iteration in program order and how the iteration ended: a panic, a
continue (submission failure: the sleep at the end of the body is skipped), or
the sleep followed by the next iteration. -/
def run_iteration (env : LoopEnv) (skipMax : Nat) : List Event × CycleEnd :=
  match env.latestBlock with
  | .error _ => ([], .panicUnwrap)
  | .ok currentBlock =>
    match is_consistent env currentBlock with
    | .panicUnwrap => ([], .panicUnwrap)
    | .panicMismatch h => ([.consistencyChecked currentBlock], .panicMismatch h)
    | .ok =>
      let latestBlock := env.chainHeadHeight
      let maxEndBlock := min latestBlock (u64add currentBlock skipMax)
      let targetBlock := env.findBlockToRequest currentBlock maxEndBlock
      let pre : List Event :=
        [.consistencyChecked currentBlock,
         .selectedTarget currentBlock maxEndBlock targetBlock,
         .printed ("Current block: " ++ toString currentBlock),
         .printed ("Target block: " ++ toString targetBlock)]
      if u64sub targetBlock currentBlock = 1 then
        match request_step env currentBlock with
        | .panicUnwrap => (pre, .panicUnwrap)
        | .submitted input (.ok requestId) =>
          (pre ++ [.submittedStep currentBlock input,
                   .logInfo ("Step request submitted: " ++ requestId),
                   .slept],
           .sleptThenNext)
        | .submitted input (.error e) =>
          (pre ++ [.submittedStep currentBlock input,
                   .logError ("Step request failed: " ++ e)],
           .continueNoSleep)
      else
        match request_skip env currentBlock targetBlock with
        | .panicUnwrap => (pre, .panicUnwrap)
        | .submitted input (.ok requestId) =>
          (pre ++ [.submittedSkip currentBlock targetBlock input,
                   .logInfo ("Skip request submitted: " ++ requestId),
                   .slept],
           .sleptThenNext)
        | .submitted input (.error e) =>
          (pre ++ [.submittedSkip currentBlock targetBlock input,
                   .logError ("Skip request failed: " ++ e)],
           .continueNoSleep)

/-- External collaborator of the manual-mode operator: only the proof-network
submission client (request_step_2 / request_skip_2 never read the contract). -/
structure ManualEnv where
  submitStep : Nat → List Nat → Except String String
  submitSkip : Nat → Nat → List Nat → Except String String

/-- TendermintXOperator::request_step_2: the trusted hash is caller-supplied;
pack and submit. -/
def request_step_2 (env : ManualEnv) (trustedHash : List Nat) (trustedBlock : Nat) :
    List Nat × Except String String :=
  (stepInputPacked trustedBlock trustedHash,
   env.submitStep trustedBlock (stepInputPacked trustedBlock trustedHash))

/-- TendermintXOperator::request_skip_2: the trusted hash is caller-supplied;
pack and submit. -/
def request_skip_2 (env : ManualEnv) (trustedHash : List Nat)
    (trustedBlock targetBlock : Nat) : List Nat × Except String String :=
  (skipInputPacked trustedBlock trustedHash targetBlock,
   env.submitSkip trustedBlock targetBlock
     (skipInputPacked trustedBlock trustedHash targetBlock))

/-- Which return path TendermintXOperator::create_proof took.  All paths return
normally to the caller; none panics. -/
inductive ManualEnd where
  | invalidInput
  | submitFailed
  | submitOk
  deriving DecidableEq

/-- TendermintXOperator::create_proof: validate current < target (else log four
error lines and return), then submit a step when the target is the next block
and a skip otherwise; on success log the request id wrapped in the sentinel
markers. -/
def create_proof (env : ManualEnv) (trustedHash : List Nat)
    (currentBlockInput targetBlockInput : Nat) : List Event × ManualEnd :=
  if currentBlockInput ≥ targetBlockInput then
    ([.logError "Invalid block input",
      .logError ("Current block: " ++ toString currentBlockInput),
      .logError ("Target block: " ++ toString targetBlockInput),
      .logError ("trusted_hash: " ++ toString trustedHash)],
     .invalidInput)
  else
    let currentBlock := currentBlockInput
    let targetBlock := targetBlockInput
    let pre : List Event :=
      [.printed ("Current block: " ++ toString currentBlock),
       .printed ("Target block: " ++ toString targetBlock),
       .printed ("New target block: " ++ toString targetBlock)]
    if u64sub targetBlock currentBlock = 1 then
      match request_step_2 env trustedHash currentBlock with
      | (input, .ok requestId) =>
        (pre ++ [.submittedStep currentBlock input,
                 .logInfo ("request____start" ++ requestId ++ "request____end"),
                 .logInfo ("Step request submitted: " ++ requestId)],
         .submitOk)
      | (input, .error e) =>
        (pre ++ [.submittedStep currentBlock input,
                 .logError ("Step request failed: " ++ e)],
         .submitFailed)
    else
      match request_skip_2 env trustedHash currentBlock targetBlock with
      | (input, .ok requestId) =>
        (pre ++ [.submittedSkip currentBlock targetBlock input,
                 .logInfo ("request____start" ++ requestId ++ "request____end"),
                 .logInfo ("Skip request submitted: " ++ requestId)],
         .submitOk)
      | (input, .error e) =>
        (pre ++ [.submittedSkip currentBlock targetBlock input,
                 .logError ("Skip request failed: " ++ e)],
         .submitFailed)

/-- Rust str::parse::<u64>: an optional leading plus sign, then one or more
ASCII digits, and the value must fit in 64 bits. -/
def parseU64 (s : String) : Option Nat :=
  let cs :=
    match s.toList with
    | '+' :: rest => rest
    | l => l
  let v := cs.foldl (fun acc c => acc * 10 + (c.toNat - '0'.toNat)) 0
  if cs ≠ [] ∧ cs.all Char.isDigit ∧ v < 2 ^ 64 then some v else none

/-- Lower-case hex digit test (subtle_encoding::hex::decode accepts only
lower-case hex). -/
def isLowerHexDigit (c : Char) : Bool := c.isDigit || ('a' ≤ c && c ≤ 'f')

/-- Numeric value of a lower-case hex digit. -/
def hexDigitVal (c : Char) : Nat :=
  if c.isDigit then c.toNat - '0'.toNat else c.toNat - 'a'.toNat + 10

/-- Pairs of hex digits to bytes. -/
def hexPairs : List Char → List Nat
  | a :: b :: rest => (hexDigitVal a * 16 + hexDigitVal b) :: hexPairs rest
  | _ => []

/-- subtle_encoding::hex::decode: an even-length string of lower-case hex digits
decodes to its byte string; anything else is an error. -/
def hexDecode (s : String) : Option (List Nat) :=
  let cs := s.toList
  if cs.all isLowerHexDigit ∧ cs.length % 2 = 0 then some (hexPairs cs) else none

/-- How the main function of the binary ends: one of the panics of the argument
prologue, or a completed run of create_proof. -/
inductive MainOutcome where
  | panicMissingArg
  | panicIndex
  | panicParseTrusted
  | panicParseTarget
  | panicInvalidHex
  | panicHashLength
  | ran (events : List Event) (endState : ManualEnd)
  deriving DecidableEq

/-- The binary's main: take args[3] as the hex hash argument (expect), parse
args[1] as the trusted height and args[2] as the target height (u64), decode
the hex, copy into a fixed 32-byte array (copy_from_slice panics unless the
decoded length is exactly 32), then construct the operator and call
create_proof(hash, trusted, height). -/
def mainRun (env : ManualEnv) (args : List String) : MainOutcome :=
  match args.get? 3 with
  | none => .panicMissingArg
  | some arg =>
    match args.get? 1 with
    | none => .panicIndex
    | some s1 =>
      match parseU64 s1 with
      | none => .panicParseTrusted
      | some trusted =>
        match args.get? 2 with
        | none => .panicIndex
        | some s2 =>
          match parseU64 s2 with
          | none => .panicParseTarget
          | some height =>
            match hexDecode arg with
            | none => .panicInvalidHex
            | some bytes =>
              if bytes.length ≠ 32 then .panicHashLength
              else
                let r := create_proof env bytes trusted height
                .ran ([.printed ("Trusted block: " ++ toString bytes),
                       .printed ("Proof height: " ++ toString height)] ++ r.1) r.2

/-- Modelled from the spec: InputDataFetcher::find_block_to_request is library
code of this repository that is not among the sources here (only its call site
in run is).  Section 4.2 of the spec requires the selected target to satisfy
current_height < target <= max_end whenever current_height < max_end; this
predicate states that contract for the selector function the loop environment
carries. -/
def SelectorSpec (f : Nat → Nat → Nat) : Prop :=
  ∀ currentBlock maxEndBlock, currentBlock < maxEndBlock →
    currentBlock < f currentBlock maxEndBlock ∧ f currentBlock maxEndBlock ≤ maxEndBlock

/-- Substring test on character lists: pat occurs somewhere in s. -/
def listHasSubstr (pat : List Char) : List Char → Bool
  | [] => pat.isEmpty
  | c :: rest => pat.isPrefixOf (c :: rest) || listHasSubstr pat rest

/-- Substring test on strings. -/
def strHasSubstr (pat s : String) : Bool := listHasSubstr pat.toList s.toList

/-- Tests whether an event is a log line (info or error) whose text contains
the start sentinel marker of the request-id framing. -/
def logMentionsSentinel (e : Event) : Bool :=
  match e with
  | .logInfo msg => strHasSubstr "request____start" msg
  | .logError msg => strHasSubstr "request____start" msg
  | _ => false

/-- Tests whether an event is a proof-network submission. -/
def isSubmitEvent (e : Event) : Bool :=
  match e with
  | .submittedStep _ _ => true
  | .submittedSkip _ _ _ => true
  | _ => false

/-- Tests whether an Except value is an error. -/
def exceptIsError {α β : Type} (x : Except α β) : Bool :=
  match x with
  | .error _ => true
  | .ok _ => false

/-- Loop environment for a failing step submission cycle. -/
def envC1 : LoopEnv :=
  { latestBlock := .ok 100
    skipMax := .ok 5000
    chainHeaderHash := fun _ => List.replicate 32 7
    contractHeaderHash := fun _ => .ok (List.replicate 32 7)
    chainHeadHeight := 101
    findBlockToRequest := fun _ m => m
    submitStep := fun _ _ => .error "network down"
    submitSkip := fun _ _ _ => .error "network down" }

/-- Loop environment whose latest-block contract read fails. -/
def envC2 : LoopEnv :=
  { latestBlock := .error "connection refused"
    skipMax := .ok 5000
    chainHeaderHash := fun _ => List.replicate 32 7
    contractHeaderHash := fun _ => .ok (List.replicate 32 7)
    chainHeadHeight := 101
    findBlockToRequest := fun _ m => m
    submitStep := fun _ _ => .ok "r1"
    submitSkip := fun _ _ _ => .ok "r2" }

/-- Loop environment one block behind the chain head, submissions succeeding. -/
def envC3 : LoopEnv :=
  { latestBlock := .ok 100
    skipMax := .ok 5000
    chainHeaderHash := fun _ => List.replicate 32 7
    contractHeaderHash := fun _ => .ok (List.replicate 32 7)
    chainHeadHeight := 101
    findBlockToRequest := fun _ m => m
    submitStep := fun _ _ => .ok "r"
    submitSkip := fun _ _ _ => .ok "r" }

/-- Manual environment with succeeding submissions. -/
def menvC3 : ManualEnv :=
  { submitStep := fun _ _ => .ok "r"
    submitSkip := fun _ _ _ => .ok "r" }

/-- Manual environment with succeeding submissions. -/
def menvC4 : ManualEnv :=
  { submitStep := fun _ _ => .ok "r"
    submitSkip := fun _ _ _ => .ok "r" }

/-- Loop environment where the chain hash and the contract hash disagree. -/
def envC5 : LoopEnv :=
  { latestBlock := .ok 50
    skipMax := .ok 100
    chainHeaderHash := fun _ => List.replicate 32 187
    contractHeaderHash := fun _ => .ok (List.replicate 32 170)
    chainHeadHeight := 60
    findBlockToRequest := fun _ m => m
    submitStep := fun _ _ => .ok "r"
    submitSkip := fun _ _ _ => .ok "r" }

/-- Loop environment in which the contract is already ahead of the chain head. -/
def envC6 : LoopEnv :=
  { latestBlock := .ok 10
    skipMax := .ok 100
    chainHeaderHash := fun _ => List.replicate 32 7
    contractHeaderHash := fun _ => .ok (List.replicate 32 7)
    chainHeadHeight := 5
    findBlockToRequest := fun _ m => m
    submitStep := fun _ _ => .ok "r"
    submitSkip := fun _ _ _ => .ok "r" }

/-- Loop environment one block behind the chain head with an upper-bound selector. -/
def envC6w : LoopEnv :=
  { latestBlock := .ok 100
    skipMax := .ok 5000
    chainHeaderHash := fun _ => List.replicate 32 7
    contractHeaderHash := fun _ => .ok (List.replicate 32 7)
    chainHeadHeight := 101
    findBlockToRequest := fun _ m => m
    submitStep := fun _ _ => .ok "r"
    submitSkip := fun _ _ _ => .ok "r" }

/-- Loop environment with a successful step submission returning a known id. -/
def envC8 : LoopEnv :=
  { latestBlock := .ok 100
    skipMax := .ok 5000
    chainHeaderHash := fun _ => List.replicate 32 7
    contractHeaderHash := fun _ => .ok (List.replicate 32 7)
    chainHeadHeight := 101
    findBlockToRequest := fun _ m => m
    submitStep := fun _ _ => .ok "abc123"
    submitSkip := fun _ _ _ => .ok "abc123" }

/-- Manual environment returning a known request id. -/
def menvC8 : ManualEnv :=
  { submitStep := fun _ _ => .ok "xyz"
    submitSkip := fun _ _ _ => .ok "xyz" }

/-- Manual environment with succeeding submissions. -/
def menvC9 : ManualEnv :=
  { submitStep := fun _ _ => .ok "w"
    submitSkip := fun _ _ _ => .ok "w" }

/-- Manual environment with succeeding submissions. -/
def menvC9w : ManualEnv :=
  { submitStep := fun _ _ => .ok "w2"
    submitSkip := fun _ _ _ => .ok "w2" }

/-- Manual environment with succeeding submissions. -/
def menvC10 : ManualEnv :=
  { submitStep := fun _ _ => .ok "v"
    submitSkip := fun _ _ _ => .ok "v" }

/-- Length of the packed u64 layout. -/
theorem u64BeBytes_length (n : Nat) : (u64BeBytes n).length = 8 := rfl

/-- Decoding the big-endian layout of a u64 value recovers the value. -/
theorem beBytesToNat_u64BeBytes (n : Nat) (hn : n < 2 ^ 64) :
    beBytesToNat (u64BeBytes n) = n := by
  simp only [u64BeBytes, beBytesToNat, List.foldl_cons, List.foldl_nil]
  omega

/-- Wrapping subtraction agrees with truncated subtraction when no underflow occurs. -/
theorem u64sub_of_le (a b : Nat) (hba : b ≤ a) (ha : a < 2 ^ 64) : u64sub a b = a - b := by
  unfold u64sub
  have hb : b < 2 ^ 64 := Nat.lt_of_le_of_lt hba ha
  rw [Nat.mod_eq_of_lt ha, Nat.mod_eq_of_lt hb]
  omega

/-- Round trip of the packed step tuple. -/
theorem stepInputDecode_stepInputPacked (t : Nat) (h : List Nat) (ht : t < 2 ^ 64) :
    stepInputDecode (stepInputPacked t h) = (t, h) := by
  unfold stepInputDecode stepInputPacked
  rw [List.take_left' (u64BeBytes_length t), List.drop_left' (u64BeBytes_length t),
      beBytesToNat_u64BeBytes t ht]

/-- Round trip of the packed skip tuple. -/
theorem skipInputDecode_skipInputPacked (t g : Nat) (h : List Nat)
    (ht : t < 2 ^ 64) (hg : g < 2 ^ 64) (hh : h.length = 32) :
    skipInputDecode (skipInputPacked t h g) = (t, (h, g)) := by
  unfold skipInputDecode skipInputPacked
  rw [List.take_left' (u64BeBytes_length t), List.drop_left' (u64BeBytes_length t),
      List.take_left' hh, List.drop_left' hh,
      beBytesToNat_u64BeBytes t ht, beBytesToNat_u64BeBytes g hg]

/-- When the contract hash read succeeds and matches the chain hash, the
consistency check passes. -/
theorem is_consistent_ok_of_eq (env : LoopEnv) (c : Nat) (ch : List Nat)
    (hch : env.contractHeaderHash c = .ok ch) (hcons : env.chainHeaderHash c = ch) :
    is_consistent env c = .ok := by
  unfold is_consistent
  rw [hch, hcons]
  simp

/-- Loop iteration, step branch, submission succeeds. -/
theorem run_iteration_step_ok (env : LoopEnv) (skipMax currentBlock : Nat)
    (ch : List Nat) (rid : String)
    (hlb : env.latestBlock = .ok currentBlock)
    (hch : env.contractHeaderHash currentBlock = .ok ch)
    (hcons : env.chainHeaderHash currentBlock = ch)
    (hgap : u64sub (env.findBlockToRequest currentBlock
      (min env.chainHeadHeight (u64add currentBlock skipMax))) currentBlock = 1)
    (hsub : env.submitStep currentBlock (stepInputPacked currentBlock ch) = .ok rid) :
    run_iteration env skipMax =
      ([.consistencyChecked currentBlock,
        .selectedTarget currentBlock (min env.chainHeadHeight (u64add currentBlock skipMax))
          (env.findBlockToRequest currentBlock (min env.chainHeadHeight (u64add currentBlock skipMax))),
        .printed ("Current block: " ++ toString currentBlock),
        .printed ("Target block: " ++ toString (env.findBlockToRequest currentBlock
          (min env.chainHeadHeight (u64add currentBlock skipMax)))),
        .submittedStep currentBlock (stepInputPacked currentBlock ch),
        .logInfo ("Step request submitted: " ++ rid),
        .slept], .sleptThenNext) := by
  have hic := is_consistent_ok_of_eq env currentBlock ch hch hcons
  simp only [run_iteration, hlb, hic, request_step, hch, hgap, if_true, hsub]
  simp

/-- Loop iteration, step branch, submission fails: the error is logged and the
iteration continues without sleeping. -/
theorem run_iteration_step_err (env : LoopEnv) (skipMax currentBlock : Nat)
    (ch : List Nat) (e : String)
    (hlb : env.latestBlock = .ok currentBlock)
    (hch : env.contractHeaderHash currentBlock = .ok ch)
    (hcons : env.chainHeaderHash currentBlock = ch)
    (hgap : u64sub (env.findBlockToRequest currentBlock
      (min env.chainHeadHeight (u64add currentBlock skipMax))) currentBlock = 1)
    (hsub : env.submitStep currentBlock (stepInputPacked currentBlock ch) = .error e) :
    run_iteration env skipMax =
      ([.consistencyChecked currentBlock,
        .selectedTarget currentBlock (min env.chainHeadHeight (u64add currentBlock skipMax))
          (env.findBlockToRequest currentBlock (min env.chainHeadHeight (u64add currentBlock skipMax))),
        .printed ("Current block: " ++ toString currentBlock),
        .printed ("Target block: " ++ toString (env.findBlockToRequest currentBlock
          (min env.chainHeadHeight (u64add currentBlock skipMax)))),
        .submittedStep currentBlock (stepInputPacked currentBlock ch),
        .logError ("Step request failed: " ++ e)], .continueNoSleep) := by
  have hic := is_consistent_ok_of_eq env currentBlock ch hch hcons
  simp only [run_iteration, hlb, hic, request_step, hch, hgap, if_true, hsub]
  simp

/-- Loop iteration, skip branch, submission succeeds. -/
theorem run_iteration_skip_ok (env : LoopEnv) (skipMax currentBlock : Nat)
    (ch : List Nat) (rid : String)
    (hlb : env.latestBlock = .ok currentBlock)
    (hch : env.contractHeaderHash currentBlock = .ok ch)
    (hcons : env.chainHeaderHash currentBlock = ch)
    (hgap : ¬ u64sub (env.findBlockToRequest currentBlock
      (min env.chainHeadHeight (u64add currentBlock skipMax))) currentBlock = 1)
    (hsub : env.submitSkip currentBlock (env.findBlockToRequest currentBlock
        (min env.chainHeadHeight (u64add currentBlock skipMax)))
      (skipInputPacked currentBlock ch (env.findBlockToRequest currentBlock
        (min env.chainHeadHeight (u64add currentBlock skipMax)))) = .ok rid) :
    run_iteration env skipMax =
      ([.consistencyChecked currentBlock,
        .selectedTarget currentBlock (min env.chainHeadHeight (u64add currentBlock skipMax))
          (env.findBlockToRequest currentBlock (min env.chainHeadHeight (u64add currentBlock skipMax))),
        .printed ("Current block: " ++ toString currentBlock),
        .printed ("Target block: " ++ toString (env.findBlockToRequest currentBlock
          (min env.chainHeadHeight (u64add currentBlock skipMax)))),
        .submittedSkip currentBlock (env.findBlockToRequest currentBlock
          (min env.chainHeadHeight (u64add currentBlock skipMax)))
          (skipInputPacked currentBlock ch (env.findBlockToRequest currentBlock
            (min env.chainHeadHeight (u64add currentBlock skipMax)))),
        .logInfo ("Skip request submitted: " ++ rid),
        .slept], .sleptThenNext) := by
  have hic := is_consistent_ok_of_eq env currentBlock ch hch hcons
  simp only [run_iteration, hlb, hic, request_skip, hch, hgap, if_false, hsub]
  simp [hgap]

/-- Loop iteration, skip branch, submission fails: the error is logged and the
iteration continues without sleeping. -/
theorem run_iteration_skip_err (env : LoopEnv) (skipMax currentBlock : Nat)
    (ch : List Nat) (e : String)
    (hlb : env.latestBlock = .ok currentBlock)
    (hch : env.contractHeaderHash currentBlock = .ok ch)
    (hcons : env.chainHeaderHash currentBlock = ch)
    (hgap : ¬ u64sub (env.findBlockToRequest currentBlock
      (min env.chainHeadHeight (u64add currentBlock skipMax))) currentBlock = 1)
    (hsub : env.submitSkip currentBlock (env.findBlockToRequest currentBlock
        (min env.chainHeadHeight (u64add currentBlock skipMax)))
      (skipInputPacked currentBlock ch (env.findBlockToRequest currentBlock
        (min env.chainHeadHeight (u64add currentBlock skipMax)))) = .error e) :
    run_iteration env skipMax =
      ([.consistencyChecked currentBlock,
        .selectedTarget currentBlock (min env.chainHeadHeight (u64add currentBlock skipMax))
          (env.findBlockToRequest currentBlock (min env.chainHeadHeight (u64add currentBlock skipMax))),
        .printed ("Current block: " ++ toString currentBlock),
        .printed ("Target block: " ++ toString (env.findBlockToRequest currentBlock
          (min env.chainHeadHeight (u64add currentBlock skipMax)))),
        .submittedSkip currentBlock (env.findBlockToRequest currentBlock
          (min env.chainHeadHeight (u64add currentBlock skipMax)))
          (skipInputPacked currentBlock ch (env.findBlockToRequest currentBlock
            (min env.chainHeadHeight (u64add currentBlock skipMax)))),
        .logError ("Skip request failed: " ++ e)], .continueNoSleep) := by
  have hic := is_consistent_ok_of_eq env currentBlock ch hch hcons
  simp only [run_iteration, hlb, hic, request_skip, hch, hgap, if_false, hsub]
  simp [hgap]

/-- Loop iteration when the chain hash and the contract hash differ: the
iteration halts at the consistency panic, before any target selection. -/
theorem run_iteration_mismatch (env : LoopEnv) (skipMax currentBlock : Nat)
    (ch : List Nat)
    (hlb : env.latestBlock = .ok currentBlock)
    (hch : env.contractHeaderHash currentBlock = .ok ch)
    (hne : env.chainHeaderHash currentBlock ≠ ch) :
    run_iteration env skipMax =
      ([.consistencyChecked currentBlock], .panicMismatch currentBlock) := by
  have hic : is_consistent env currentBlock = .panicMismatch currentBlock := by
    unfold is_consistent
    rw [hch]
    simp [hne]
  simp only [run_iteration, hlb, hic]

/-- Loop iteration when the latest-block contract read fails: the unwrap panics. -/
theorem run_iteration_latest_err (env : LoopEnv) (skipMax : Nat) (e : String)
    (hlb : env.latestBlock = .error e) :
    run_iteration env skipMax = ([], .panicUnwrap) := by
  simp only [run_iteration, hlb]

/-- Loop iteration when the header-hash contract read fails: the unwrap panics. -/
theorem run_iteration_hash_err (env : LoopEnv) (skipMax currentBlock : Nat) (e : String)
    (hlb : env.latestBlock = .ok currentBlock)
    (hch : env.contractHeaderHash currentBlock = .error e) :
    run_iteration env skipMax = ([], .panicUnwrap) := by
  have hic : is_consistent env currentBlock = .panicUnwrap := by
    unfold is_consistent
    rw [hch]
  simp only [run_iteration, hlb, hic]

/-- Every recorded target selection comes from a consistency-checked iteration:
the current block is the unwrapped latest block, the bound and the target are
the ones the loop computes, the check passed, and the check is the first event. -/
theorem selectedTarget_mem_run_iteration (env : LoopEnv) (skipMax c m t : Nat)
    (hmem : Event.selectedTarget c m t ∈ (run_iteration env skipMax).1) :
    env.latestBlock = .ok c ∧
    m = min env.chainHeadHeight (u64add c skipMax) ∧
    t = env.findBlockToRequest c m ∧
    is_consistent env c = .ok ∧
    (run_iteration env skipMax).1.head? = some (Event.consistencyChecked c) := by
  cases hlb : env.latestBlock with
  | error e =>
    rw [run_iteration_latest_err env skipMax e hlb] at hmem
    simp at hmem
  | ok cur =>
    cases hch : env.contractHeaderHash cur with
    | error e =>
      rw [run_iteration_hash_err env skipMax cur e hlb hch] at hmem
      simp at hmem
    | ok ch =>
      by_cases hcons : env.chainHeaderHash cur = ch
      · have hic := is_consistent_ok_of_eq env cur ch hch hcons
        by_cases hgap : u64sub (env.findBlockToRequest cur
          (min env.chainHeadHeight (u64add cur skipMax))) cur = 1
        · cases hsub : env.submitStep cur (stepInputPacked cur ch) with
          | ok rid =>
            rw [run_iteration_step_ok env skipMax cur ch rid hlb hch hcons hgap hsub] at hmem ⊢
            simp at hmem
            obtain ⟨hc, hm, ht⟩ := hmem
            subst hc
            exact ⟨rfl, hm, by rw [hm]; exact ht, hic, by simp⟩
          | error e =>
            rw [run_iteration_step_err env skipMax cur ch e hlb hch hcons hgap hsub] at hmem ⊢
            simp at hmem
            obtain ⟨hc, hm, ht⟩ := hmem
            subst hc
            exact ⟨rfl, hm, by rw [hm]; exact ht, hic, by simp⟩
        · cases hsub : env.submitSkip cur (env.findBlockToRequest cur
            (min env.chainHeadHeight (u64add cur skipMax)))
            (skipInputPacked cur ch (env.findBlockToRequest cur
              (min env.chainHeadHeight (u64add cur skipMax)))) with
          | ok rid =>
            rw [run_iteration_skip_ok env skipMax cur ch rid hlb hch hcons hgap hsub] at hmem ⊢
            simp at hmem
            obtain ⟨hc, hm, ht⟩ := hmem
            subst hc
            exact ⟨rfl, hm, by rw [hm]; exact ht, hic, by simp⟩
          | error e =>
            rw [run_iteration_skip_err env skipMax cur ch e hlb hch hcons hgap hsub] at hmem ⊢
            simp at hmem
            obtain ⟨hc, hm, ht⟩ := hmem
            subst hc
            exact ⟨rfl, hm, by rw [hm]; exact ht, hic, by simp⟩
      · rw [run_iteration_mismatch env skipMax cur ch hlb hch hcons] at hmem
        simp at hmem

/-- C1 (amended): in a non-panicking loop iteration, the proof-network
submission fails exactly when the iteration ends in the continue that skips
the fixed inter-cycle sleep; on failure the error is logged, no sleep event
occurs, and the next iteration starts immediately (no retry counter exists:
the iteration is a pure function of the freshly read environment). -/
theorem submit_failure_continue_skips_sleep (env : LoopEnv) (skipMax : Nat)
    (hnp : (run_iteration env skipMax).2 = .continueNoSleep ∨
           (run_iteration env skipMax).2 = .sleptThenNext) :
    ((run_iteration env skipMax).2 = .continueNoSleep ↔
      ∃ msg, Event.logError msg ∈ (run_iteration env skipMax).1) ∧
    ((run_iteration env skipMax).2 = .continueNoSleep →
      Event.slept ∉ (run_iteration env skipMax).1) := by
  cases hlb : env.latestBlock with
  | error e =>
    rw [run_iteration_latest_err env skipMax e hlb] at hnp
    simp at hnp
  | ok c =>
    cases hch : env.contractHeaderHash c with
    | error e =>
      rw [run_iteration_hash_err env skipMax c e hlb hch] at hnp
      simp at hnp
    | ok ch =>
      by_cases hcons : env.chainHeaderHash c = ch
      · by_cases hgap : u64sub (env.findBlockToRequest c
          (min env.chainHeadHeight (u64add c skipMax))) c = 1
        · cases hsub : env.submitStep c (stepInputPacked c ch) with
          | ok rid =>
            rw [run_iteration_step_ok env skipMax c ch rid hlb hch hcons hgap hsub]
            simp
          | error e =>
            rw [run_iteration_step_err env skipMax c ch e hlb hch hcons hgap hsub]
            simp
        · cases hsub : env.submitSkip c (env.findBlockToRequest c
            (min env.chainHeadHeight (u64add c skipMax)))
            (skipInputPacked c ch (env.findBlockToRequest c
              (min env.chainHeadHeight (u64add c skipMax)))) with
          | ok rid =>
            rw [run_iteration_skip_ok env skipMax c ch rid hlb hch hcons hgap hsub]
            simp
          | error e =>
            rw [run_iteration_skip_err env skipMax c ch e hlb hch hcons hgap hsub]
            simp
      · rw [run_iteration_mismatch env skipMax c ch hlb hch hcons] at hnp
        simp at hnp

/-- C1 counterexample: in an iteration whose step submission fails, the error
is logged but no sleep happens before the next iteration, contradicting the
claim that the iteration proceeds to the sleep state. -/
theorem submit_failure_sleeps_cx :
    Event.logError ("Step request failed: " ++ "network down") ∈ (run_iteration envC1 5000).1 ∧
    Event.slept ∉ (run_iteration envC1 5000).1 ∧
    (run_iteration envC1 5000).2 = CycleEnd.continueNoSleep := by decide

/-- C1 witness: the amended theorem applied to a concrete failing iteration. -/
theorem submit_failure_continue_skips_sleep_witness :
    Event.slept ∉ (run_iteration envC1 100).1 :=
  (submit_failure_continue_skips_sleep envC1 100 (Or.inl (by decide))).2 (by decide)

/-- C2 (amended): a loop iteration ends in the unwrap panic (process
termination) exactly when a contract read fails: either the latest-block read
or the stored-header-hash read at the current block; in particular a
proof-network submission failure never terminates the iteration. -/
theorem panic_iff_contract_read_error (env : LoopEnv) (skipMax : Nat) :
    (run_iteration env skipMax).2 = CycleEnd.panicUnwrap ↔
      (exceptIsError env.latestBlock = true ∨
       ∃ c, env.latestBlock = .ok c ∧ exceptIsError (env.contractHeaderHash c) = true) := by
  cases hlb : env.latestBlock with
  | error e =>
    rw [run_iteration_latest_err env skipMax e hlb]
    simp [exceptIsError]
  | ok c =>
    cases hch : env.contractHeaderHash c with
    | error e =>
      rw [run_iteration_hash_err env skipMax c e hlb hch]
      simp [exceptIsError, hch]
    | ok ch =>
      by_cases hcons : env.chainHeaderHash c = ch
      · by_cases hgap : u64sub (env.findBlockToRequest c
          (min env.chainHeadHeight (u64add c skipMax))) c = 1
        · cases hsub : env.submitStep c (stepInputPacked c ch) with
          | ok rid =>
            rw [run_iteration_step_ok env skipMax c ch rid hlb hch hcons hgap hsub]
            simp [exceptIsError, hch]
          | error e =>
            rw [run_iteration_step_err env skipMax c ch e hlb hch hcons hgap hsub]
            simp [exceptIsError, hch]
        · cases hsub : env.submitSkip c (env.findBlockToRequest c
            (min env.chainHeadHeight (u64add c skipMax)))
            (skipInputPacked c ch (env.findBlockToRequest c
              (min env.chainHeadHeight (u64add c skipMax)))) with
          | ok rid =>
            rw [run_iteration_skip_ok env skipMax c ch rid hlb hch hcons hgap hsub]
            simp [exceptIsError, hch]
          | error e =>
            rw [run_iteration_skip_err env skipMax c ch e hlb hch hcons hgap hsub]
            simp [exceptIsError, hch]
      · rw [run_iteration_mismatch env skipMax c ch hlb hch hcons]
        simp [exceptIsError, hch]

/-- C2 counterexample: a transient latest-block read error makes the iteration
end in the unwrap panic, terminating the process, contradicting the claim that
no transient network error terminates it. -/
theorem transient_read_error_panics_cx :
    exceptIsError envC2.latestBlock = true ∧
    (run_iteration envC2 5000).2 = CycleEnd.panicUnwrap ∧
    (run_iteration envC2 5000).1 = [] := by decide

/-- C2 witness: the amended theorem applied to a concrete failing read. -/
theorem panic_iff_contract_read_error_witness :
    (run_iteration envC2 7).2 = CycleEnd.panicUnwrap :=
  (panic_iff_contract_read_error envC2 7).mpr (Or.inl (by decide))

/-- C3: in both loop mode (an iteration that reaches the request decision) and
manual mode, a step request is submitted iff the target exceeds the trusted
height by exactly one, and a skip request is submitted iff it does not. -/
theorem step_iff_gap_one
    (env : LoopEnv) (skipMax currentBlock : Nat) (ch : List Nat)
    (menv : ManualEnv) (trustedHash : List Nat) (t g : Nat)
    (hlb : env.latestBlock = .ok currentBlock)
    (hch : env.contractHeaderHash currentBlock = .ok ch)
    (hcons : env.chainHeaderHash currentBlock = ch)
    (hlt : currentBlock < env.findBlockToRequest currentBlock
      (min env.chainHeadHeight (u64add currentBlock skipMax)))
    (hb : env.findBlockToRequest currentBlock
      (min env.chainHeadHeight (u64add currentBlock skipMax)) < 2 ^ 64)
    (htg : t < g) (hgb : g < 2 ^ 64) :
    ((∃ i, Event.submittedStep currentBlock i ∈ (run_iteration env skipMax).1) ↔
       env.findBlockToRequest currentBlock
         (min env.chainHeadHeight (u64add currentBlock skipMax)) - currentBlock = 1) ∧
    ((∃ i tb, Event.submittedSkip currentBlock tb i ∈ (run_iteration env skipMax).1) ↔
       env.findBlockToRequest currentBlock
         (min env.chainHeadHeight (u64add currentBlock skipMax)) - currentBlock ≠ 1) ∧
    ((∃ i, Event.submittedStep t i ∈ (create_proof menv trustedHash t g).1) ↔ g - t = 1) ∧
    ((∃ i tb, Event.submittedSkip t tb i ∈ (create_proof menv trustedHash t g).1) ↔ g - t ≠ 1) := by
  have hsubeq : u64sub (env.findBlockToRequest currentBlock
      (min env.chainHeadHeight (u64add currentBlock skipMax))) currentBlock =
      env.findBlockToRequest currentBlock
        (min env.chainHeadHeight (u64add currentBlock skipMax)) - currentBlock :=
    u64sub_of_le _ _ (Nat.le_of_lt hlt) hb
  have hsubeq2 : u64sub g t = g - t := u64sub_of_le g t (Nat.le_of_lt htg) hgb
  refine ⟨?_, ?_, ?_, ?_⟩
  · by_cases hgap : env.findBlockToRequest currentBlock
      (min env.chainHeadHeight (u64add currentBlock skipMax)) - currentBlock = 1
    · cases hsub : env.submitStep currentBlock (stepInputPacked currentBlock ch) with
      | ok rid =>
        rw [run_iteration_step_ok env skipMax currentBlock ch rid hlb hch hcons
          (hsubeq.trans hgap) hsub]
        simp [hgap]
      | error e =>
        rw [run_iteration_step_err env skipMax currentBlock ch e hlb hch hcons
          (hsubeq.trans hgap) hsub]
        simp [hgap]
    · have hgap2 : ¬ u64sub (env.findBlockToRequest currentBlock
        (min env.chainHeadHeight (u64add currentBlock skipMax))) currentBlock = 1 := by
        rw [hsubeq]; exact hgap
      cases hsub : env.submitSkip currentBlock (env.findBlockToRequest currentBlock
        (min env.chainHeadHeight (u64add currentBlock skipMax)))
        (skipInputPacked currentBlock ch (env.findBlockToRequest currentBlock
          (min env.chainHeadHeight (u64add currentBlock skipMax)))) with
      | ok rid =>
        rw [run_iteration_skip_ok env skipMax currentBlock ch rid hlb hch hcons hgap2 hsub]
        simp [hgap]
      | error e =>
        rw [run_iteration_skip_err env skipMax currentBlock ch e hlb hch hcons hgap2 hsub]
        simp [hgap]
  · by_cases hgap : env.findBlockToRequest currentBlock
      (min env.chainHeadHeight (u64add currentBlock skipMax)) - currentBlock = 1
    · cases hsub : env.submitStep currentBlock (stepInputPacked currentBlock ch) with
      | ok rid =>
        rw [run_iteration_step_ok env skipMax currentBlock ch rid hlb hch hcons
          (hsubeq.trans hgap) hsub]
        simp [hgap]
      | error e =>
        rw [run_iteration_step_err env skipMax currentBlock ch e hlb hch hcons
          (hsubeq.trans hgap) hsub]
        simp [hgap]
    · have hgap2 : ¬ u64sub (env.findBlockToRequest currentBlock
        (min env.chainHeadHeight (u64add currentBlock skipMax))) currentBlock = 1 := by
        rw [hsubeq]; exact hgap
      cases hsub : env.submitSkip currentBlock (env.findBlockToRequest currentBlock
        (min env.chainHeadHeight (u64add currentBlock skipMax)))
        (skipInputPacked currentBlock ch (env.findBlockToRequest currentBlock
          (min env.chainHeadHeight (u64add currentBlock skipMax)))) with
      | ok rid =>
        rw [run_iteration_skip_ok env skipMax currentBlock ch rid hlb hch hcons hgap2 hsub]
        simp [hgap]
      | error e =>
        rw [run_iteration_skip_err env skipMax currentBlock ch e hlb hch hcons hgap2 hsub]
        simp [hgap]
  · unfold create_proof
    rw [if_neg (by omega)]
    by_cases hgap : g - t = 1
    · rw [if_pos (hsubeq2.trans hgap)]
      cases hsub : menv.submitStep t (stepInputPacked t trustedHash) with
      | ok rid => simp [request_step_2, hsub, hgap]
      | error e => simp [request_step_2, hsub, hgap]
    · rw [if_neg (by rw [hsubeq2]; exact hgap)]
      cases hsub : menv.submitSkip t g (skipInputPacked t trustedHash g) with
      | ok rid => simp [request_skip_2, hsub, hgap]
      | error e => simp [request_skip_2, hsub, hgap]
  · unfold create_proof
    rw [if_neg (by omega)]
    by_cases hgap : g - t = 1
    · rw [if_pos (hsubeq2.trans hgap)]
      cases hsub : menv.submitStep t (stepInputPacked t trustedHash) with
      | ok rid => simp [request_step_2, hsub, hgap]
      | error e => simp [request_step_2, hsub, hgap]
    · rw [if_neg (by rw [hsubeq2]; exact hgap)]
      cases hsub : menv.submitSkip t g (skipInputPacked t trustedHash g) with
      | ok rid => simp [request_skip_2, hsub, hgap]
      | error e => simp [request_skip_2, hsub, hgap]

/-- C3 witness: the boundary cases: in a loop iteration with gap 1 a step is
submitted, and in a manual invocation with gap 2 a skip is submitted. -/
theorem step_iff_gap_one_witness :
    (∃ i, Event.submittedStep 100 i ∈ (run_iteration envC3 5000).1) ∧
    (∃ i tb, Event.submittedSkip 5 tb i ∈ (create_proof menvC3 (List.replicate 32 7) 5 7).1) := by
  have h := step_iff_gap_one envC3 5000 100 (List.replicate 32 7) menvC3 (List.replicate 32 7) 5 7
    (by decide) (by decide) (by decide) (by decide) (by decide) (by decide) (by decide)
  exact ⟨h.1.mpr (by decide), h.2.2.2.mpr (by decide)⟩

/-- C4: a manual invocation with trusted height at or above the target height
logs the error lines, returns via the invalid-input path, and its event trace
contains no submission event. -/
theorem manual_invalid_input_no_submit (menv : ManualEnv) (trustedHash : List Nat)
    (t g : Nat) (h : t ≥ g) :
    (create_proof menv trustedHash t g).2 = ManualEnd.invalidInput ∧
    ((create_proof menv trustedHash t g).1.all fun e => !isSubmitEvent e) = true ∧
    Event.logError "Invalid block input" ∈ (create_proof menv trustedHash t g).1 := by
  unfold create_proof
  rw [if_pos h]
  simp [isSubmitEvent]

/-- C4 witness: the theorem applied at trusted 9, target 3. -/
theorem manual_invalid_input_no_submit_witness :
    (create_proof menvC4 (List.replicate 32 7) 9 3).2 = ManualEnd.invalidInput ∧
    ((create_proof menvC4 (List.replicate 32 7) 9 3).1.all fun e => !isSubmitEvent e) = true ∧
    Event.logError "Invalid block input" ∈ (create_proof menvC4 (List.replicate 32 7) 9 3).1 :=
  manual_invalid_input_no_submit menvC4 (List.replicate 32 7) 9 3 (by decide)

/-- C5: given the two hashes for a height, the consistency check panics exactly
when they differ and passes exactly when they are equal; and in loop mode every
recorded target selection is preceded by a passed consistency check, which is
the first event of the iteration. -/
theorem consistency_check_exact (env : LoopEnv) (currentBlock skipMax : Nat) (ch : List Nat)
    (hch : env.contractHeaderHash currentBlock = .ok ch) :
    ((is_consistent env currentBlock = .panicMismatch currentBlock ↔
        env.chainHeaderHash currentBlock ≠ ch) ∧
     (is_consistent env currentBlock = .ok ↔ env.chainHeaderHash currentBlock = ch)) ∧
    (∀ c m t, Event.selectedTarget c m t ∈ (run_iteration env skipMax).1 →
      (run_iteration env skipMax).1.head? = some (Event.consistencyChecked c) ∧
      is_consistent env c = .ok) := by
  refine ⟨⟨?_, ?_⟩, ?_⟩
  · unfold is_consistent
    rw [hch]
    by_cases hc : env.chainHeaderHash currentBlock = ch <;> simp [hc]
  · unfold is_consistent
    rw [hch]
    by_cases hc : env.chainHeaderHash currentBlock = ch <;> simp [hc]
  · intro c m t hmem
    obtain ⟨_, _, _, hic, hhead⟩ := selectedTarget_mem_run_iteration env skipMax c m t hmem
    exact ⟨hhead, hic⟩

/-- C5 witness: the exactness part applied to an environment whose hashes
disagree at the checked height. -/
theorem consistency_check_exact_witness :
    (is_consistent envC5 50 = .panicMismatch 50 ↔
      envC5.chainHeaderHash 50 ≠ List.replicate 32 170) ∧
    (is_consistent envC5 50 = .ok ↔ envC5.chainHeaderHash 50 = List.replicate 32 170) :=
  (consistency_check_exact envC5 50 100 (List.replicate 32 170) (by decide)).1

/-- C6 (amended): when the contract height is strictly below the chain head
(and the skip bound is at least 1, without u64 overflow), any target the loop
records lies in the half-open interval bounded by the current height and the
minimum of the chain head and current height plus max skip, provided the
selector meets its spec contract; the no-op part of the claim fails (see the
counterexample). -/
theorem selected_target_in_bounds (env : LoopEnv) (skipMax : Nat)
    (hsel : SelectorSpec env.findBlockToRequest)
    (c m t : Nat)
    (hmem : Event.selectedTarget c m t ∈ (run_iteration env skipMax).1)
    (hlt : c < env.chainHeadHeight) (hsk : 1 ≤ skipMax) (hof : c + skipMax < 2 ^ 64) :
    c < t ∧ t ≤ min env.chainHeadHeight (c + skipMax) := by
  obtain ⟨hlb, hm, ht, _, _⟩ := selectedTarget_mem_run_iteration env skipMax c m t hmem
  have hadd : u64add c skipMax = c + skipMax := Nat.mod_eq_of_lt hof
  rw [hadd] at hm
  have hcm : c < m := by
    rw [hm]
    exact lt_min hlt (by omega)
  obtain ⟨h1, h2⟩ := hsel c m hcm
  rw [← ht] at h1 h2
  exact ⟨h1, hm ▸ h2⟩

/-- C6 counterexample: with the contract height (10) at or above the chain
head (5) the loop does not no-op: it still selects a target and submits a
request before sleeping, contradicting the claim that no request is issued. -/
theorem caught_up_still_submits_cx :
    envC6.latestBlock = .ok 10 ∧ envC6.chainHeadHeight ≤ 10 ∧
    ((run_iteration envC6 100).1.any isSubmitEvent) = true ∧
    (run_iteration envC6 100).2 = CycleEnd.sleptThenNext := by decide

/-- C6 witness: the bound applied to a concrete iteration one block behind the
chain head. -/
theorem selected_target_in_bounds_witness :
    (100 : Nat) < 101 ∧ (101 : Nat) ≤ min envC6w.chainHeadHeight (100 + 5000) :=
  selected_target_in_bounds envC6w 5000 (fun _ _ h => ⟨h, Nat.le_refl _⟩) 100 101 101
    (by decide) (by decide) (by decide) (by decide)

/-- C7: payload construction is deterministic (equal inputs give byte-identical
packed payloads) and decoding the packed step and skip tuples recovers the
original trusted height, trusted header hash, and target height. -/
theorem packed_payload_roundtrip (t : Nat) (h : List Nat) (g : Nat)
    (t2 : Nat) (h2 : List Nat) (g2 : Nat)
    (ht : t < 2 ^ 64) (hg : g < 2 ^ 64) (hh : h.length = 32)
    (heqt : t = t2) (heqh : h = h2) (heqg : g = g2) :
    (stepInputPacked t h = stepInputPacked t2 h2 ∧
     skipInputPacked t h g = skipInputPacked t2 h2 g2) ∧
    stepInputDecode (stepInputPacked t h) = (t, h) ∧
    skipInputDecode (skipInputPacked t h g) = (t, (h, g)) := by
  subst heqt
  subst heqh
  subst heqg
  exact ⟨⟨rfl, rfl⟩, stepInputDecode_stepInputPacked t h ht,
    skipInputDecode_skipInputPacked t g h ht hg hh⟩

/-- C7 witness: the round trip at concrete values. -/
theorem packed_payload_roundtrip_witness :
    stepInputDecode (stepInputPacked 5 (List.replicate 32 170)) = (5, List.replicate 32 170) ∧
    skipInputDecode (skipInputPacked 5 (List.replicate 32 170) 9) =
      (5, (List.replicate 32 170, 9)) := by
  have h := packed_payload_roundtrip 5 (List.replicate 32 170) 9 5 (List.replicate 32 170) 9
    (by decide) (by decide) (by decide) rfl rfl rfl
  exact ⟨h.2.1, h.2.2⟩

/-- C8 (amended): on a successful manual-mode submission the request identifier
is logged wrapped between the sentinel markers; loop mode logs it without
sentinels (see the counterexample). -/
theorem manual_success_logs_sentinel (menv : ManualEnv) (trustedHash : List Nat)
    (t g : Nat) (rid : String)
    (htg : t < g) (hgb : g < 2 ^ 64)
    (hstep : menv.submitStep t (stepInputPacked t trustedHash) = .ok rid)
    (hskip : menv.submitSkip t g (skipInputPacked t trustedHash g) = .ok rid) :
    Event.logInfo ("request____start" ++ rid ++ "request____end") ∈
      (create_proof menv trustedHash t g).1 ∧
    (create_proof menv trustedHash t g).2 = ManualEnd.submitOk := by
  have hsubeq : u64sub g t = g - t := u64sub_of_le g t (Nat.le_of_lt htg) hgb
  unfold create_proof
  rw [if_neg (by omega)]
  by_cases hgap : u64sub g t = 1
  · rw [if_pos hgap]
    simp [request_step_2, hstep]
  · rw [if_neg hgap]
    simp [request_skip_2, hskip]

/-- C8 counterexample: a successful loop-mode step submission logs the request
identifier, but no log line of the iteration contains the start sentinel, so
the identifier is not wrapped in sentinel markers in loop mode. -/
theorem loop_success_no_sentinel_cx :
    (run_iteration envC8 5000).2 = CycleEnd.sleptThenNext ∧
    Event.logInfo ("Step request submitted: " ++ "abc123") ∈ (run_iteration envC8 5000).1 ∧
    ((run_iteration envC8 5000).1.all fun e => !logMentionsSentinel e) = true := by decide

/-- C8 witness: the sentinel framing on a concrete successful manual skip. -/
theorem manual_success_logs_sentinel_witness :
    Event.logInfo ("request____start" ++ "xyz" ++ "request____end") ∈
      (create_proof menvC8 (List.replicate 32 7) 5 7).1 ∧
    (create_proof menvC8 (List.replicate 32 7) 5 7).2 = ManualEnd.submitOk :=
  manual_success_logs_sentinel menvC8 (List.replicate 32 7) 5 7 "xyz"
    (by decide) (by decide) (by decide) (by decide)

/-- C9 (amended): the manual invocation parses its positional arguments in the
order trusted height (1), target height (2), hex-encoded 32-byte trusted
header hash (3), and with valid values runs create_proof on them. -/
theorem main_arg_order (menv : ManualEnv) (s1 s2 s3 : String) (tv gv : Nat) (bytes : List Nat)
    (h1 : parseU64 s1 = some tv) (h2 : parseU64 s2 = some gv)
    (h3 : hexDecode s3 = some bytes) (hlen : bytes.length = 32) :
    mainRun menv ["tendermintx", s1, s2, s3] =
      .ran ([.printed ("Trusted block: " ++ toString bytes),
             .printed ("Proof height: " ++ toString gv)] ++ (create_proof menv bytes tv gv).1)
        (create_proof menv bytes tv gv).2 := by
  simp only [mainRun, List.get?, h1, h2, h3]
  rw [if_neg (by simp [hlen])]

/-- C9 counterexample: passing the hex hash as the first positional argument,
as the claim orders them, panics while parsing it as the trusted height: the
hash is the third argument, not the first. -/
theorem hash_first_arg_order_cx :
    mainRun menvC9 ["tendermintx", String.mk (List.replicate 64 'a'), "100", "101"] =
      MainOutcome.panicParseTrusted := by decide

/-- C9 witness: the amended order on concrete arguments. -/
theorem main_arg_order_witness :
    mainRun menvC9w ["tendermintx", "100", "101", String.mk (List.replicate 64 'a')] =
      .ran ([.printed ("Trusted block: " ++ toString (List.replicate 32 170)),
             .printed ("Proof height: " ++ toString 101)] ++
             (create_proof menvC9w (List.replicate 32 170) 100 101).1)
        (create_proof menvC9w (List.replicate 32 170) 100 101).2 :=
  main_arg_order menvC9w "100" "101" (String.mk (List.replicate 64 'a')) 100 101
    (List.replicate 32 170) (by decide) (by decide) (by decide) (by decide)

/-- C10: when the hash argument is valid hex decoding to a length other than
32, the main prologue never reaches create_proof (no run outcome is possible),
and when both height arguments parse, the outcome is precisely the
length-check panic of the fixed 32-byte copy. -/
theorem bad_hash_length_panics (menv : ManualEnv) (args : List String) (s : String)
    (bytes : List Nat)
    (h3 : args.get? 3 = some s) (hdec : hexDecode s = some bytes) (hlen : bytes.length ≠ 32) :
    (∀ ev endSt, mainRun menv args ≠ .ran ev endSt) ∧
    (∀ s1 tv s2 gv, args.get? 1 = some s1 → parseU64 s1 = some tv →
      args.get? 2 = some s2 → parseU64 s2 = some gv →
      mainRun menv args = .panicHashLength) := by
  constructor
  · intro ev endSt
    simp only [mainRun, h3]
    cases hq1 : args.get? 1 with
    | none => simp
    | some s1 =>
      cases hp1 : parseU64 s1 with
      | none => simp [hp1]
      | some tv =>
        cases hq2 : args.get? 2 with
        | none => simp [hp1]
        | some s2 =>
          cases hp2 : parseU64 s2 with
          | none => simp [hp1, hp2]
          | some gv => simp [hp1, hp2, hdec, hlen]
  · intro s1 tv s2 gv hq1 hp1 hq2 hp2
    simp only [mainRun, h3, hq1, hp1, hq2, hp2, hdec]
    simp [hlen]

/-- C10 witness: a 2-byte hex hash argument panics at the length check. -/
theorem bad_hash_length_panics_witness :
    mainRun menvC10 ["tendermintx", "100", "101", "aabb"] = MainOutcome.panicHashLength :=
  (bad_hash_length_panics menvC10 ["tendermintx", "100", "101", "aabb"] "aabb" [170, 187]
    (by decide) (by decide) (by decide)).2
    "100" 100 "101" 101 (by decide) (by decide) (by decide) (by decide)

end Tendermintx
